import Mathlib

/-!
Shallow embedding of `main.py` of the SevsWhatsapp repository, together with
proofs about its reply-composition and webhook logic.

Modelling conventions, matching Python semantics at the points the code uses:
* A JSON field that is absent is modelled as `none`; since the code reads every
  row field with `dict.get` (returning `None` for an absent key), a field whose
  JSON value is `null` is also modelled as `none`.
* Python truthiness on optional string fields (`if row.get("expires_on")`) is
  `truthyS`: `none` and the empty string are falsy.  Truthiness on optional
  boolean fields is `truthyB`: `none` is falsy.
* `"sep".join(parts)` is `joinNL`/`joinComma`; `str.strip()` is `pyStrip`
  (drop whitespace from both ends, written over `List Char` so that the
  kernel can evaluate it).
The strings below reproduce the source literally, including the typographic
apostrophe (U+2019) and the em dash / bullet characters it uses.
-/

set_option autoImplicit false
set_option linter.unusedVariables false

namespace SevsWhatsapp

/-- Python `"\n".join`. -/
def joinNL : List String → String
  | [] => ""
  | [s] => s
  | s :: rest => s ++ "\n" ++ joinNL rest

/-- Python `", ".join`. -/
def joinComma : List String → String
  | [] => ""
  | [s] => s
  | s :: rest => s ++ ", " ++ joinComma rest

/-- Python `str.strip()`: remove whitespace from both ends. -/
def pyStrip (s : String) : String :=
  String.mk (((s.data.dropWhile Char.isWhitespace).reverse.dropWhile Char.isWhitespace).reverse)

/-- Python truthiness of an optional string (`None` and `""` are falsy). -/
def truthyS : Option String → Bool
  | none => false
  | some s => s != ""

/-- Python truthiness of an optional boolean (`None` is falsy). -/
def truthyB : Option Bool → Bool
  | none => false
  | some b => b

/-- One alternate suggestion: `{variant, model_code}` (main.py lines 56, 91). -/
structure Alt where
  variant : Option String := none
  model_code : Option String := none

/-- The `model_report` sub-object of a row (main.py lines 65–66, 81–88). -/
structure ModelReport where
  has_report : Bool := false
  status : Option String := none
  mr_number : Option String := none
  issuer : Option String := none

/-- The `build_date_match` sub-object of a row (main.py lines 75–76).
`from` is a Lean keyword, so the fields are `from_`/`to_`. -/
structure BuildWindow where
  from_ : Option String := none
  to_ : Option String := none

/-- One `EligibilityRow` of the backend envelope (spec §3; read by
`compose_reply`, main.py lines 59–93). -/
structure Row where
  make : Option String := none
  model : Option String := none
  variant : Option String := none
  model_code : Option String := none
  eligible : Option Bool := none
  eligibility_reason : Option String := none
  build_date_match : Option BuildWindow := none
  expires_on : Option String := none
  days_to_expiry : Option Int := none
  expiring_soon : Option Bool := none
  model_report : Option ModelReport := none
  alternates : Option (List Alt) := none

/-- The `QueryResultEnvelope` (spec §3): `ok`, `data`, optional top-level
`alternates`. -/
structure Envelope where
  ok : Bool
  data : List Row := []
  alternates : Option (List Alt) := none

/-- main.py lines 56 and 91: `f'{a.get("variant","?")} {a.get("model_code","")}'.strip()`. -/
def altStr (a : Alt) : String :=
  pyStrip (a.variant.getD "?" ++ " " ++ a.model_code.getD "")

/-- main.py lines 62–66: one bullet of the multi-match summary. -/
def bulletLine (row : Row) : String :=
  let mr := row.model_report.getD {}
  "• " ++ row.make.getD "" ++ " " ++ row.model.getD "" ++ " "
    ++ row.variant.getD "" ++ " " ++ row.model_code.getD "" ++ " — "
    ++ (if truthyB row.eligible then "Eligible" else "Not eligible")
    ++ (if truthyS row.expires_on then "; expires " ++ row.expires_on.getD "" else "")
    ++ ("; MR " ++ (if mr.has_report then mr.status.getD "none" else "none"))

/-- main.py lines 59–69: header, first three bullets, closing prompt. -/
def multiLines (data : List Row) : List String :=
  ["I found multiple matches:"]
    ++ (data.take 3).map bulletLine
    ++ ["Tell me the specific variant or model code and I’ll confirm."]

/-- main.py line 80: the expiring-soon flag line. -/
def flagLine : String := "Flag: expiring soon. Start compliance steps ASAP."

/-- main.py line 88: the fixed no-model-report line. -/
def noReportLine : String :=
  "No valid model report on record; compliance not currently possible."

/-- main.py lines 81–88: the model-report line of the single-row block. -/
def mrLine (row : Row) : String :=
  let mr := row.model_report.getD {}
  if mr.has_report then
    "Model report: " ++ mr.status.getD "unknown"
      ++ (if truthyS mr.mr_number then " — " ++ mr.mr_number.getD "" else "")
      ++ (if truthyS mr.issuer then " (" ++ mr.issuer.getD "" ++ ")" else "")
      ++ "."
  else
    noReportLine

/-- main.py lines 70–92: the `parts` list of the single-row block, in source
order: verdict, reason, build window, expiry, flag, model report, alternates. -/
def singleParts (row : Row) : List String :=
  let bd := row.build_date_match.getD {}
  let alts := row.alternates.getD []
  ["**" ++ (if truthyB row.eligible then "Eligible" else "Not eligible") ++ "**"]
    ++ (if truthyS row.eligibility_reason then
          ["Reason: " ++ row.eligibility_reason.getD "" ++ "."] else [])
    ++ (if truthyS bd.from_ || truthyS bd.to_ then
          ["Build window: " ++ bd.from_.getD "?" ++ " → " ++ bd.to_.getD "?" ++ "."] else [])
    ++ (if truthyS row.expires_on then
          ["SEVS entry expires " ++ row.expires_on.getD ""
            ++ (match row.days_to_expiry with
                | some d => " (" ++ toString d ++ " days)"
                | none => "") ++ "."] else [])
    ++ (if truthyB row.expiring_soon then [flagLine] else [])
    ++ [mrLine row]
    ++ (if !alts.isEmpty then
          ["Closest alternatives: " ++ joinComma ((alts.take 3).map altStr) ++ "."] else [])

/-- main.py lines 49–93, `compose_reply`: envelope to reply text. -/
def compose_reply (payload : Envelope) : String :=
  if payload.ok = false then
    "I couldn’t retrieve SEVS data right now. Try again in a moment."
  else if payload.data.isEmpty then
    let alts := payload.alternates.getD []
    if !alts.isEmpty then
      "No exact match. Closest options: " ++ joinComma ((alts.map altStr).take 5)
        ++ ". Share the variant/model code and build year/month."
    else
      "No matching SEVS entry found. Share the variant or model code and build year/month and I’ll re-check."
  else if payload.data.length > 1 then
    joinNL (multiLines payload.data)
  else
    joinNL (singleParts (payload.data.headD {}))

/-! ### Substring machinery

`strContains hay needle` is Python's `needle in hay`, written over `List Char`
so that the kernel can evaluate it and so that occurrence proofs can be given
by explicit decompositions. -/

/-- The first list is a prefix of the second. -/
def isPre : List Char → List Char → Bool
  | [], _ => true
  | _ :: _, [] => false
  | a :: as, b :: bs => a == b && isPre as bs

/-- The first list occurs as a contiguous sublist of the second. -/
def occurs (n : List Char) : List Char → Bool
  | [] => isPre n []
  | c :: t => isPre n (c :: t) || occurs n t

/-- Python `needle in hay` on strings. -/
def strContains (hay needle : String) : Bool :=
  occurs needle.data hay.data

/-- Whether a string starts with the text of the expiring-soon flag prefix. -/
def startsFlag (s : String) : Bool :=
  isPre "Flag: ".data s.data

/-- Whether a string starts with `"Model report: "`. -/
def startsModelReport (s : String) : Bool :=
  isPre "Model report: ".data s.data

/-! ### Webhook model

A small JSON universe with the Python `dict`/`list` access semantics the
handler relies on: `d[k]` raises `KeyError` on a missing key, `l[i]` raises
`IndexError` out of range, `.get` with a default never raises on a `dict` but
raises `AttributeError` on anything else.  `Except PyErr` is exception
propagation. -/

/-- JSON values. -/
inductive Json where
  | null
  | bool (b : Bool)
  | num (n : Int)
  | str (s : String)
  | arr (elems : List Json)
  | obj (fields : List (String × Json))

/-- Python exceptions the handler can raise. -/
inductive PyErr where
  | keyError (k : String)
  | indexError
  | typeError
  | attributeError
  | jsonDecodeError
  | valueError
deriving DecidableEq

/-- First-match association-list lookup (Python `dict` access; key order is
irrelevant for the well-formed payloads modelled here). -/
def jlookup : List (String × Json) → String → Option Json
  | [], _ => none
  | (k, v) :: rest, key => if k = key then some v else jlookup rest key

/-- Python truthiness of a JSON value. -/
def pyFalsy : Json → Bool
  | .null => true
  | .bool b => !b
  | .num n => n == 0
  | .str s => s == ""
  | .arr l => l.isEmpty
  | .obj l => l.isEmpty

/-- Python `j.get(k, d)`: default on a missing key, `AttributeError` when the
receiver is not a dict. -/
def pyGet (j : Json) (k : String) (d : Json) : Except PyErr Json :=
  match j with
  | .obj fields => .ok ((jlookup fields k).getD d)
  | _ => .error .attributeError

/-- Python `j[k]` with a string key. -/
def getItemS (j : Json) (k : String) : Except PyErr Json :=
  match j with
  | .obj fields =>
    match jlookup fields k with
    | some v => .ok v
    | none => .error (.keyError k)
  | _ => .error .typeError

/-- Python `j[i]` with a non-negative integer index. -/
def getItemI (j : Json) (i : Nat) : Except PyErr Json :=
  match j with
  | .arr l =>
    match l.get? i with
    | some v => .ok v
    | none => .error .indexError
  | .str s =>
    match s.data.get? i with
    | some c => .ok (.str (String.mk [c]))
    | none => .error .indexError
  | .obj _ => .error (.keyError (toString i))
  | _ => .error .typeError

/-- main.py line 112: `payload["entry"][0]["changes[0]"]["value"]` — note the
literal key string `"changes[0]"`. -/
def tryPrimary (payload : Json) : Except PyErr Json := do
  let e ← getItemS payload "entry"
  let e0 ← getItemI e 0
  let c ← getItemS e0 "changes[0]"
  getItemS c "value"

/-- main.py line 114: the permissive fallback
`payload.get("entry",[{}])[0].get("changes",[{}])[0].get("value",{})`. -/
def fallbackValue (payload : Json) : Except PyErr Json := do
  let e ← pyGet payload "entry" (.arr [.obj []])
  let e0 ← getItemI e 0
  let cs ← pyGet e0 "changes" (.arr [.obj []])
  let c0 ← getItemI cs 0
  pyGet c0 "value" (.obj [])

/-- main.py lines 111–114: try the primary shape, on any exception run the
fallback (whose own exceptions propagate). -/
def resolveValue (payload : Json) : Except PyErr Json :=
  match tryPrimary payload with
  | .ok v => .ok v
  | .error _ => fallbackValue payload

/-- Outcome of the ingestion phase: either nothing to do, or a message with
its `from` field and extracted text. -/
inductive Ingest where
  | nothingToDo
  | message (from_number : Json) (text : Json)

/-- main.py lines 110–120: resolve the value object, read `messages`, bail out
when empty, read `msg["from"]` (uncaught `KeyError` when absent), then extract
the text (`text.body`, falling back to the interactive reply field). -/
def parseInbound (payload : Json) : Except PyErr Ingest := do
  let value ← resolveValue payload
  let messages ← pyGet value "messages" (.arr [])
  if pyFalsy messages then
    return .nothingToDo
  else
    let msg ← getItemI messages 0
    let from_number ← getItemS msg "from"
    let t ← pyGet msg "text" (.obj [])
    let tb ← pyGet t "body" .null
    let text ←
      if pyFalsy tb then do
        let i ← pyGet msg "interactive" (.obj [])
        let nf ← pyGet i "nfm_reply" (.obj [])
        pyGet nf "response_json" .null
      else
        pure tb
    if pyFalsy text then
      return .nothingToDo
    else
      return .message from_number text

/-- One tool call of the oracle's answer.  `argsJson` is the result of
`json.loads(tool_calls[0].function.arguments)`; `none` models an arguments
string that fails to decode (the `json.loads` exception is uncaught). -/
structure ToolCall where
  argsJson : Option Json := none

/-- The oracle's chat answer: optional tool calls and optional text content. -/
structure OracleMsg where
  tool_calls : List ToolCall := []
  content : Option String := none

/-- Externally visible effects of one webhook invocation. -/
inductive Effect where
  | backendCall (args : Json)
  | send (to_number : Json) (body : String)

/-- Whether an effect is a backend query attempt. -/
def isBackendCall : Effect → Bool
  | .backendCall _ => true
  | _ => false

/-- Whether an effect is an outbound send attempt. -/
def isSend : Effect → Bool
  | .send _ _ => true
  | _ => false

/-- The handler's success response body `{"ok": true}`. -/
def okTrueResp : Json := .obj [("ok", .bool true)]

/-- main.py lines 108–143, `inbound`.  The oracle and the backend are opaque
parameters; `sendOk` is whether the outbound send succeeds (its failure is
caught and logged, so it affects nothing — the parameter is unused by
construction, mirroring lines 139–142).  The effect list records the single
backend call attempt of line 133 (the code has no retry loop) and the single
send attempt of line 140.  Exceptions escaping the handler body (missing
`from`, empty `entry`/`changes` lists, malformed tool arguments) are
`Except.error`. -/
def inbound (payload : Json) (oracle : Json → OracleMsg)
    (backend : Json → Except String Envelope) (sendOk : Bool) :
    Except PyErr (List Effect × Json) := do
  let ing ← parseInbound payload
  match ing with
  | .nothingToDo => return ([], okTrueResp)
  | .message from_number text =>
    let m := oracle text
    match m.tool_calls with
    | tc :: _ =>
      match tc.argsJson with
      | none => .error .jsonDecodeError
      | some args =>
        let reply :=
          match backend args with
          | .ok env => compose_reply env
          | .error e => "I couldn’t reach the SEVS service. " ++ e
        return ([.backendCall args, .send from_number reply], okTrueResp)
    | [] =>
      let reply :=
        match m.content with
        | some c =>
          if c != "" then c
          else "Tell me the make/model/variant or model code, and build year/month."
        | none => "Tell me the make/model/variant or model code, and build year/month."
      return ([.send from_number reply], okTrueResp)

/-- The conventional payload shape down to the `value` object:
`{"entry":[{"changes":[{"value": v}]}]}`. -/
def wrapValue (v : Json) : Json :=
  .obj [("entry", .arr [.obj [("changes", .arr [.obj [("value", v)]])]])]

/-- A payload whose value object carries exactly one message `m`. -/
def wrapMsg (m : Json) : Json :=
  wrapValue (.obj [("messages", .arr [m])])

/-- Result type of the GET verification endpoint: FastAPI returns either the
integer form of the challenge or a string. -/
inductive VerifyResp where
  | num (n : Nat)
  | str (s : String)
deriving DecidableEq

/-- Starts of the 0–9 runs of Unicode decimal-digit characters (category Nd),
as classified by CPython (Python 3.11): a character is a decimal digit iff its
code point lies in `[s, s+9]` for one of these starts, and its digit value is
then the offset into the run.  `int()` accepts exactly these characters, in
any script, even mixed within one string. -/
def decimalRunStarts : List Nat :=
  [48, 1632, 1776, 1984, 2406, 2534, 2662, 2790, 2918, 3046,
   3174, 3302, 3430, 3558, 3664, 3792, 3872, 4160, 4240, 6112,
   6160, 6470, 6608, 6784, 6800, 6992, 7088, 7232, 7248, 42528,
   43216, 43264, 43472, 43504, 43600, 44016, 65296, 66720, 68912, 69734,
   69872, 69942, 70096, 70384, 70736, 70864, 71248, 71360, 71472, 71904,
   72016, 72784, 73040, 73120, 92768, 92864, 93008, 120782, 120792, 120802,
   120812, 120822, 123200, 123632, 125264, 130032]

/-- Inclusive code-point ranges of the remaining characters for which Python
`str.isdigit()` is true but `int()` raises `ValueError` (Numeric_Type=Digit
without a decimal value: superscripts such as "²", subscripts, circled and
parenthesized digits, segmented digits, and a few script-specific sets). -/
def digitNonDecimalRanges : List (Nat × Nat) :=
  [(178, 179), (185, 185), (4969, 4977), (6618, 6618), (8304, 8304),
   (8308, 8313), (8320, 8329), (9312, 9320), (9332, 9340), (9352, 9360),
   (9450, 9450), (9461, 9469), (9471, 9471), (10102, 10110), (10112, 10120),
   (10122, 10130), (68160, 68163), (69216, 69224), (69714, 69722),
   (127232, 127242)]

/-- The decimal value of a Unicode decimal-digit character, `none` for every
other character. -/
def pyDecimalValue (c : Char) : Option Nat :=
  match decimalRunStarts.find? (fun s => s ≤ c.toNat && c.toNat ≤ s + 9) with
  | some s => some (c.toNat - s)
  | none => none

/-- Python `ch.isdigit()` for one character: the decimal digits together with
the digit-but-not-decimal characters. -/
def pyIsDigitChar (c : Char) : Bool :=
  (pyDecimalValue c).isSome
    || digitNonDecimalRanges.any (fun r => r.1 ≤ c.toNat && c.toNat ≤ r.2)

/-- Python `str.isdigit()`: non-empty and every character a digit. -/
def pyIsdigit (s : String) : Bool :=
  !s.data.isEmpty && s.data.all pyIsDigitChar

/-- Python `int()` applied to a string that passed `isdigit()` (so it carries
no sign, whitespace or underscores): it succeeds iff every character is a
decimal digit, giving the base-10 number built from the digit values, and
raises `ValueError` otherwise — e.g. `int("٣") = 3` but `int("²")` raises. -/
def pyIntDigits (s : String) : Except PyErr Nat :=
  if s.data.all fun c => (pyDecimalValue c).isSome then
    .ok (s.data.foldl (fun n c => 10 * n + (pyDecimalValue c).getD 0) 0)
  else
    .error .valueError

/-- main.py lines 102–106, `verify`: the GET verification endpoint, with the
configured `VERIFY_TOKEN` passed explicitly as `verify_token`.  The result is
`Except PyErr` because `int(challenge)` raises an uncaught `ValueError` when
the challenge is `isdigit()`-true but contains a digit character with no
decimal value. -/
def verify (mode challenge token : Option String) (verify_token : String) :
    Except PyErr VerifyResp :=
  if mode = some "subscribe" ∧ token = some verify_token then
    match challenge with
    | some c =>
      if c != "" && pyIsdigit c then
        match pyIntDigits c with
        | .ok n => .ok (.num n)
        | .error err => .error err
      else
        .ok (.str c)
    | none => .ok (.str "")
  else
    .ok (.str "forbidden")

/-! ### Concrete inputs used by witnesses and counterexamples -/

/-- An ASCII apostrophe, built from its code point (the source strings use the
typographic apostrophe U+2019 instead). -/
def apos : String := (Char.ofNat 39).toString

/-- A five-row envelope exercising the multi-match truncation. -/
def env5 : Envelope := { ok := true, data := [{}, {}, {}, {}, {}] }

/-- A concrete alternate. -/
def alt1 : Alt := { variant := some "SR5", model_code := some "GUN126" }

/-- A delivery payload with one message carrying a `from` field and a text
body. -/
def c7payload : Json :=
  wrapMsg (.obj [("from", .str "61400000000"), ("text", .obj [("body", .str "q")])])

/-- An oracle that always answers with one tool call with decodable
arguments. -/
def oracle0 : Json → OracleMsg :=
  fun _ => { tool_calls := [{ argsJson := some (.obj [("query_type", .str "vehicle_eligibility")]) }] }

/-- A backend whose call fails with detail `"timeout"`. -/
def backend0 : Json → Except String Envelope :=
  fun _ => .error "timeout"

/-- A single-row envelope whose free-text reason embeds the flag sentence. -/
def c8row : Row :=
  { eligible := some false,
    eligibility_reason := some "Flag: expiring soon. Start compliance steps ASAP.",
    model_report := some { has_report := false } }

/-! ### Helper lemmas -/

theorem except_bind_ok {ε α β : Type} (x : α) (k : α → Except ε β) :
    (Except.ok x : Except ε α) >>= k = k x := rfl

theorem except_bind_error {ε α β : Type} (err : ε) (k : α → Except ε β) :
    (Except.error err : Except ε α) >>= k = .error err := rfl

theorem except_pure {ε α : Type} (x : α) : (pure x : Except ε α) = .ok x := rfl

theorem not_mem_ite_nil {α : Type} {c : Prop} [Decidable c] {x y : α}
    (h : x ≠ y) : x ∉ (if c then [y] else []) := by
  split <;> simp [h]

theorem isPre_self_append (l q : List Char) : isPre l (l ++ q) = true := by
  induction l with
  | nil => rfl
  | cons a as ih => simp [isPre, ih]

theorem occurs_nil_needle (h : List Char) : occurs [] h = true := by
  cases h <;> simp [occurs, isPre]

theorem occurs_of_decomp (p n q : List Char) : occurs n (p ++ n ++ q) = true := by
  induction p with
  | nil =>
    cases n with
    | nil => simpa using occurs_nil_needle q
    | cons a as => simp [occurs, isPre, isPre_self_append]
  | cons c p ih =>
    have ih2 : occurs n (p ++ (n ++ q)) = true := by simpa [List.append_assoc] using ih
    simp [occurs, ih2]

theorem strContains_decomp (hay needle : String) (u v : List Char)
    (h : hay.data = u ++ needle.data ++ v) : strContains hay needle = true := by
  unfold strContains
  rw [h]
  exact occurs_of_decomp u needle.data v

theorem joinNL_data_decomp (parts : List String) (s : String) (hs : s ∈ parts) :
    ∃ p q, (joinNL parts).data = p ++ s.data ++ q := by
  induction parts with
  | nil => cases hs
  | cons a rest ih =>
    rcases List.mem_cons.mp hs with h | h
    · subst h
      cases rest with
      | nil => exact ⟨[], [], by simp [joinNL]⟩
      | cons b r =>
        refine ⟨[], ([String.mk [Char.ofNat 10]] ++ [joinNL (b :: r)]).foldl (fun acc x => acc ++ x.data) [], ?_⟩
        simp [joinNL, String.data_append, List.append_assoc]
    · cases rest with
      | nil => cases h
      | cons b r =>
        obtain ⟨p, q, hpq⟩ := ih h
        refine ⟨a.data ++ "\n".data ++ p, q, ?_⟩
        simp [joinNL, String.data_append, hpq, List.append_assoc]

theorem strContains_of_mem_sub (parts : List String) (s needle : String)
    (hs : s ∈ parts) (u v : List Char) (huv : s.data = u ++ needle.data ++ v) :
    strContains (joinNL parts) needle = true := by
  obtain ⟨p, q, hpq⟩ := joinNL_data_decomp parts s hs
  refine strContains_decomp _ _ (p ++ u) (v ++ q) ?_
  rw [hpq, huv]
  simp [List.append_assoc]

theorem ne_of_startsFlag {s t : String} (hs : startsFlag s = true)
    (ht : startsFlag t = false) : s ≠ t := by
  intro he
  rw [he, ht] at hs
  exact Bool.noConfusion hs

/-! ### Claims -/

/-- C2 (amended): for every envelope with `ok = false`, `compose_reply`
returns exactly the fixed apology string of main.py line 51 — spelled with a
typographic apostrophe U+2019, not an ASCII apostrophe — regardless of the
`data` and `alternates` content. -/
theorem c2_apology_fixed (env : Envelope) (h : env.ok = false) :
    compose_reply env
      = "I couldn’t retrieve SEVS data right now. Try again in a moment." := by
  simp [compose_reply, h]

/-- C2 witness: a failed envelope carrying junk data and alternates still gets
the fixed apology. -/
theorem c2_apology_fixed_witness :
    compose_reply { ok := false, data := [{}], alternates := some [{}] }
      = "I couldn’t retrieve SEVS data right now. Try again in a moment." :=
  c2_apology_fixed { ok := false, data := [{}], alternates := some [{}] } rfl

/-- C2 counterexample: the claim's string, spelled with an ASCII apostrophe,
is not the string the code returns (the source uses U+2019 in `couldn’t`). -/
theorem c2_apology_ascii_counterexample :
    compose_reply { ok := false }
      ≠ "I couldn" ++ apos ++ "t retrieve SEVS data right now. Try again in a moment." := by
  decide

/-- C5 (confirmed): with `ok = true` and empty `data`, the reply depends only
on whether the top-level `alternates` list is non-empty: non-empty gives the
"No exact match. Closest options: " listing of at most the first 5 alternates
rendered `"{variant} {model_code}"` and joined by `", "`, with the closing
request for variant/model code and build year/month; empty (or absent) gives
the fixed no-matching-entry message with the same request. -/
theorem c5_empty_data (env : Envelope) (h1 : env.ok = true) (h2 : env.data = []) :
    (∀ alts, env.alternates = some alts → alts ≠ [] →
        compose_reply env
          = "No exact match. Closest options: "
              ++ joinComma ((alts.take 5).map altStr)
              ++ ". Share the variant/model code and build year/month.")
      ∧ ((env.alternates = none ∨ env.alternates = some []) →
          compose_reply env
            = "No matching SEVS entry found. Share the variant or model code and build year/month and I’ll re-check.")
      ∧ (∀ alts, env.alternates = some alts → ((alts.take 5).map altStr).length ≤ 5) := by
  refine ⟨?_, ?_, ?_⟩
  · intro alts ha hne
    cases alts with
    | nil => exact absurd rfl hne
    | cons a as => simp [compose_reply, h1, h2, ha, List.map_take]
  · intro hcase
    rcases hcase with h | h <;> simp [compose_reply, h1, h2, h]
  · intro alts ha
    simp [List.length_take]

/-- C5 witness: one envelope per branch. -/
theorem c5_empty_data_witness :
    compose_reply { ok := true, data := [], alternates := some [alt1] }
      = "No exact match. Closest options: SR5 GUN126. Share the variant/model code and build year/month."
      ∧ compose_reply { ok := true, data := [] }
        = "No matching SEVS entry found. Share the variant or model code and build year/month and I’ll re-check." := by
  constructor
  · rw [(c5_empty_data { ok := true, data := [], alternates := some [alt1] } rfl rfl).1 [alt1]
      rfl (List.cons_ne_nil _ _)]
    decide
  · exact (c5_empty_data { ok := true, data := [] } rfl rfl).2.1 (Or.inl rfl)

/-- C4 (confirmed): with `ok = true` and more than one row, the reply is the
header "I found multiple matches:", one bullet per row for exactly
`min(k, 3)` rows (a `k = 5` envelope renders exactly 3 bullets), each bullet
rendered `make model variant model_code — Eligible|Not eligible`, with
`"; expires {expires_on}"` only when `expires_on` is present and truthy and
`"; MR {status}"` where the stored status appears only when
`model_report.has_report` is true and the literal `"none"` appears otherwise,
followed by the closing prompt asking for the specific variant or model
code. -/
theorem c4_multi_match (env : Envelope) (h1 : env.ok = true) (h2 : env.data.length > 1) :
    compose_reply env
        = joinNL (["I found multiple matches:"]
            ++ (env.data.take 3).map bulletLine
            ++ ["Tell me the specific variant or model code and I’ll confirm."])
      ∧ ((env.data.take 3).map bulletLine).length = min env.data.length 3
      ∧ (env.data.length = 5 → ((env.data.take 3).map bulletLine).length = 3)
      ∧ ∀ row ∈ env.data.take 3,
          bulletLine row
            = "• " ++ row.make.getD "" ++ " " ++ row.model.getD "" ++ " "
                ++ row.variant.getD "" ++ " " ++ row.model_code.getD "" ++ " — "
                ++ (if truthyB row.eligible then "Eligible" else "Not eligible")
                ++ (if truthyS row.expires_on then "; expires " ++ row.expires_on.getD "" else "")
                ++ ("; MR " ++ (if (row.model_report.getD {}).has_report
                      then (row.model_report.getD {}).status.getD "none" else "none")) := by
  have hie : env.data.isEmpty = false := by
    cases hd : env.data with
    | nil => rw [hd] at h2; simp at h2
    | cons a rest => rfl
  refine ⟨?_, ?_, ?_, ?_⟩
  · simp [compose_reply, multiLines, h1, hie, h2]
  · simp [List.length_take]
    omega
  · intro h5
    simp [List.length_take, h5]
  · intro row _
    rfl

/-- C4 witness: the five-row envelope renders exactly three bullets plus the
header and closing prompt. -/
theorem c4_multi_match_witness :
    compose_reply env5
        = joinNL (["I found multiple matches:"]
            ++ (env5.data.take 3).map bulletLine
            ++ ["Tell me the specific variant or model code and I’ll confirm."])
      ∧ ((env5.data.take 3).map bulletLine).length = 3 :=
  ⟨(c4_multi_match env5 rfl (by decide)).1,
   (c4_multi_match env5 rfl (by decide)).2.2.1 rfl⟩

/-- C10 (confirmed): a row whose `eligible` field is absent (and hence also
one whose JSON value is `null`, since `dict.get` returns `None` for both) is
rendered exactly like `eligible = false` in both the multi-match bullet and
the single-row block, producing "Not eligible". -/
theorem c10_falsy_eligible (row : Row) (al : Option (List Alt)) :
    bulletLine { row with eligible := none } = bulletLine { row with eligible := some false }
      ∧ singleParts { row with eligible := none } = singleParts { row with eligible := some false }
      ∧ compose_reply { ok := true, data := [{ row with eligible := none }], alternates := al }
          = compose_reply { ok := true, data := [{ row with eligible := some false }], alternates := al }
      ∧ (singleParts { row with eligible := none }).headD "" = "**Not eligible**"
      ∧ strContains (bulletLine { row with eligible := none }) "Not eligible" = true := by
  refine ⟨rfl, rfl, rfl, rfl, ?_⟩
  refine strContains_decomp _ _
    ("• " ++ row.make.getD "" ++ " " ++ row.model.getD "" ++ " "
      ++ row.variant.getD "" ++ " " ++ row.model_code.getD "" ++ " — ").data
    (((if truthyS row.expires_on then "; expires " ++ row.expires_on.getD "" else "")
      ++ ("; MR " ++ (if (row.model_report.getD {}).has_report
            then (row.model_report.getD {}).status.getD "none" else "none"))).data) ?_
  simp [bulletLine, truthyB, String.data_append, List.append_assoc]

/-- C1 (amended): for a single-row success envelope whose row has
`eligible = true` and no optional fields, the reply is the bold verdict line
followed by the fixed no-model-report line (an absent `model_report` falls
into the `else` branch of main.py lines 82–88, so the second line is always
present). -/
theorem c1_minimal_single (row : Row) (al : Option (List Alt))
    (h1 : row.eligible = some true) (h2 : row.eligibility_reason = none)
    (h3 : row.build_date_match = none) (h4 : row.expires_on = none)
    (h5 : row.expiring_soon = none) (h6 : row.model_report = none)
    (h7 : row.alternates = none) :
    compose_reply { ok := true, data := [row], alternates := al }
      = "**Eligible**\nNo valid model report on record; compliance not currently possible." := by
  simp [compose_reply, singleParts, mrLine, joinNL, noReportLine,
    h1, h2, h3, h4, h5, h6, h7, truthyS, truthyB]

/-- C1 witness: the scenario-1 row (`eligible: true`, everything else
absent). -/
theorem c1_minimal_single_witness :
    compose_reply { ok := true, data := [{ eligible := some true }] }
      = "**Eligible**\nNo valid model report on record; compliance not currently possible." :=
  c1_minimal_single { eligible := some true } none rfl rfl rfl rfl rfl rfl rfl

/-- C1 counterexample: the scenario-1 envelope does not compose to the bare
string "**Eligible**"; the fixed no-model-report line follows it. -/
theorem c1_minimal_single_counterexample :
    compose_reply { ok := true, data := [{ eligible := some true }] } ≠ "**Eligible**"
      ∧ compose_reply { ok := true, data := [{ eligible := some true }] }
          = "**Eligible**\nNo valid model report on record; compliance not currently possible." := by
  constructor
  · decide
  · decide

/-- C9 (confirmed): every single-row reply carries a model-report line — a
line beginning "Model report: " when `model_report.has_report` is true, and
the fixed no-model-report line otherwise, in particular when the
`model_report` field is entirely absent (then `row.get("model_report") or {}`
yields the empty dict and `has_report` is falsy). -/
theorem c9_always_model_report_line (row : Row) (al : Option (List Alt)) :
    compose_reply { ok := true, data := [row], alternates := al } = joinNL (singleParts row)
      ∧ mrLine row ∈ singleParts row
      ∧ ((row.model_report.getD {}).has_report = true →
          startsModelReport (mrLine row) = true)
      ∧ ((row.model_report.getD {}).has_report = false → mrLine row = noReportLine)
      ∧ (row.model_report = none → mrLine row = noReportLine) := by
  refine ⟨rfl, ?_, ?_, ?_, ?_⟩
  · simp [singleParts]
  · intro h
    simp only [mrLine, h, if_true]
    rfl
  · intro h
    simp [mrLine, h]
  · intro h
    simp [mrLine, h]

/-- C9 witness: the three shapes — report present, `has_report` false, field
absent. -/
theorem c9_always_model_report_line_witness :
    startsModelReport (mrLine { model_report := some { has_report := true, status := some "active" } }) = true
      ∧ mrLine { model_report := some { has_report := false } } = noReportLine
      ∧ mrLine ({} : Row) = noReportLine
      ∧ mrLine ({} : Row) ∈ singleParts {} :=
  ⟨(c9_always_model_report_line { model_report := some { has_report := true, status := some "active" } } none).2.2.1 rfl,
   (c9_always_model_report_line { model_report := some { has_report := false } } none).2.2.2.1 rfl,
   (c9_always_model_report_line {} none).2.2.2.2 rfl,
   (c9_always_model_report_line {} none).2.1⟩

/-- C8 (amended): for a single-row envelope whose row has
`eligible = false`, `expiring_soon` absent, and `model_report.has_report`
false, the reply contains "Not eligible" and the fixed no-model-report line,
and the expiring-soon flag line is not one of the reply's lines — it is never
emitted by the composer and can appear in the output only as a substring of a
free-text field value supplied by the backend. -/
theorem c8_not_eligible_no_flag (row : Row) (al : Option (List Alt))
    (h1 : row.eligible = some false)
    (h2 : row.expiring_soon = none)
    (h3 : (row.model_report.getD {}).has_report = false) :
    compose_reply { ok := true, data := [row], alternates := al } = joinNL (singleParts row)
      ∧ strContains (compose_reply { ok := true, data := [row], alternates := al }) "Not eligible" = true
      ∧ flagLine ∉ singleParts row
      ∧ noReportLine ∈ singleParts row
      ∧ strContains (compose_reply { ok := true, data := [row], alternates := al }) noReportLine = true := by
  have hmr : mrLine row = noReportLine := by simp [mrLine, h3]
  have hvmem : ("**" ++ "Not eligible" ++ "**") ∈ singleParts row := by
    simp [singleParts, h1, truthyB]
  have hnrmem : noReportLine ∈ singleParts row := by
    simp [singleParts, hmr]
  refine ⟨rfl, ?_, ?_, hnrmem, ?_⟩
  · exact strContains_of_mem_sub (singleParts row) _ _ hvmem "**".data "**".data
      (by simp [String.data_append])
  · intro hmem
    simp only [singleParts, h2, truthyB, hmr] at hmem
    simp only [if_false, Bool.false_eq_true, List.append_nil, List.nil_append,
      List.singleton_append, List.mem_cons, List.mem_append, List.not_mem_nil, or_false] at hmem
    rcases hmem with ((((h | h) | h) | h) | h) | h
    · exact absurd h (ne_of_startsFlag rfl rfl)
    · exact absurd h (not_mem_ite_nil (ne_of_startsFlag rfl rfl))
    · exact absurd h (not_mem_ite_nil (ne_of_startsFlag rfl rfl))
    · exact absurd h (not_mem_ite_nil (ne_of_startsFlag rfl rfl))
    · exact absurd h (ne_of_startsFlag rfl rfl)
    · exact absurd h (not_mem_ite_nil (ne_of_startsFlag rfl rfl))
  · exact strContains_of_mem_sub (singleParts row) _ _ hnrmem [] []
      (by simp)

/-- C8 witness: a concrete not-eligible row with an expiry date and no
report. -/
theorem c8_not_eligible_no_flag_witness :
    flagLine ∉ singleParts { eligible := some false, expires_on := some "2025-12-31" }
      ∧ noReportLine ∈ singleParts { eligible := some false, expires_on := some "2025-12-31" } :=
  ⟨(c8_not_eligible_no_flag { eligible := some false, expires_on := some "2025-12-31" } none
      rfl rfl rfl).2.2.1,
   (c8_not_eligible_no_flag { eligible := some false, expires_on := some "2025-12-31" } none
      rfl rfl rfl).2.2.2.1⟩

/-- C8 counterexample: the containment claim read over the raw reply text is
falsifiable — a row meeting all of the claim's conditions whose free-text
`eligibility_reason` embeds the flag sentence makes the composed reply
contain "Flag: expiring soon". -/
theorem c8_flag_injection_counterexample :
    c8row.eligible = some false
      ∧ c8row.expiring_soon = none
      ∧ (c8row.model_report.getD {}).has_report = false
      ∧ strContains (compose_reply { ok := true, data := [c8row] }) "Flag: expiring soon" = true := by
  refine ⟨rfl, rfl, rfl, ?_⟩
  decide

/-- C6 (amended): the GET verification endpoint requires both
`mode == "subscribe"` and a matching verify token; then a non-empty
`isdigit()` challenge is passed to `int()` — a challenge made of decimal
digits of any script comes back as its integer value (so "٣" yields 3), while
a challenge containing a digit character with no decimal value, such as "²",
makes `int()` raise an uncaught `ValueError` — and any other challenge is
returned as the raw string ("" when the parameter is absent).  In every other
case, including a matching token with a different or missing `mode`, the
response is the literal string "forbidden".  `mode=subscribe` with the
correct token and challenge "12345" yields the integer 12345. -/
theorem c6_verify_characterization (vtok : String) (mode challenge token : Option String) :
    (mode = some "subscribe" → token = some vtok →
        (∀ c n, challenge = some c → (c != "" && pyIsdigit c) = true →
            pyIntDigits c = .ok n →
            verify mode challenge token vtok = .ok (.num n))
          ∧ (∀ c, challenge = some c → (c != "" && pyIsdigit c) = true →
              pyIntDigits c = .error .valueError →
              verify mode challenge token vtok = .error .valueError)
          ∧ (∀ c, challenge = some c → (c != "" && pyIsdigit c) = false →
              verify mode challenge token vtok = .ok (.str c))
          ∧ (challenge = none → verify mode challenge token vtok = .ok (.str "")))
      ∧ (¬(mode = some "subscribe" ∧ token = some vtok) →
          verify mode challenge token vtok = .ok (.str "forbidden"))
      ∧ verify (some "subscribe") (some "12345") (some vtok) vtok = .ok (.num 12345) := by
  refine ⟨?_, ?_, ?_⟩
  · intro hm ht
    refine ⟨?_, ?_, ?_, ?_⟩
    · intro c n hc hd hi
      simp [verify, hm, ht, hc, hd, hi]
    · intro c hc hd hi
      simp [verify, hm, ht, hc, hd, hi]
    · intro c hc hd
      simp [verify, hm, ht, hc, hd]
    · intro hc
      simp [verify, hm, ht, hc]
  · intro hmt
    simp [verify, hmt]
  · unfold verify
    rw [if_pos ⟨rfl, rfl⟩]
    rfl

/-- C6 witness: the scenario-3 request, a wrong mode, a non-numeric
challenge, the Arabic-Indic decimal challenge "٣" (integer 3), and the
superscript challenge "²" (uncaught `ValueError`). -/
theorem c6_verify_witness :
    verify (some "subscribe") (some "12345") (some "sekr1t") "sekr1t" = .ok (.num 12345)
      ∧ verify (some "nope") (some "12345") (some "sekr1t") "sekr1t" = .ok (.str "forbidden")
      ∧ verify (some "subscribe") (some "abc") (some "sekr1t") "sekr1t" = .ok (.str "abc")
      ∧ verify (some "subscribe") (some "٣") (some "sekr1t") "sekr1t" = .ok (.num 3)
      ∧ verify (some "subscribe") (some "²") (some "sekr1t") "sekr1t" = .error .valueError :=
  ⟨(c6_verify_characterization "sekr1t" (some "subscribe") (some "12345") (some "sekr1t")).2.2,
   (c6_verify_characterization "sekr1t" (some "nope") (some "12345") (some "sekr1t")).2.1
     (by simp),
   ((c6_verify_characterization "sekr1t" (some "subscribe") (some "abc") (some "sekr1t")).1
     rfl rfl).2.2.1 "abc" rfl (by decide),
   ((c6_verify_characterization "sekr1t" (some "subscribe") (some "٣") (some "sekr1t")).1
     rfl rfl).1 "٣" 3 rfl (by decide) rfl,
   ((c6_verify_characterization "sekr1t" (some "subscribe") (some "²") (some "sekr1t")).1
     rfl rfl).2.1 "²" rfl (by decide) rfl⟩

/-- C6 counterexample: the token matches and the challenge "12345" is
all-digits, yet with `mode` absent the response is "forbidden", not the
integer 12345 — the claim omits the `mode == "subscribe"` requirement. -/
theorem c6_missing_mode_counterexample :
    verify none (some "12345") (some "sekr1t") "sekr1t" = .ok (.str "forbidden")
      ∧ (Except.ok (VerifyResp.str "forbidden") : Except PyErr VerifyResp)
          ≠ .ok (.num 12345) := by
  constructor
  · rfl
  · simp

/-- C7 (amended): whenever the parsed message leads to a tool call whose
backend query fails, the handler performs exactly one backend attempt and one
send attempt (the code has no retry loop), and the reply sent is the fixed
apology of main.py line 136 — spelled with a typographic apostrophe U+2019 —
followed by the error detail. -/
theorem c7_backend_failure (payload : Json) (oracle : Json → OracleMsg)
    (backend : Json → Except String Envelope) (sendOk : Bool)
    (f text : Json) (tc : ToolCall) (rest : List ToolCall) (args : Json) (e : String)
    (hp : parseInbound payload = .ok (.message f text))
    (ho : (oracle text).tool_calls = tc :: rest)
    (ha : tc.argsJson = some args)
    (hb : backend args = .error e) :
    inbound payload oracle backend sendOk
        = .ok ([.backendCall args, .send f ("I couldn’t reach the SEVS service. " ++ e)], okTrueResp)
      ∧ ∀ effs resp, inbound payload oracle backend sendOk = .ok (effs, resp) →
          effs.countP isBackendCall = 1 ∧ effs.countP isSend = 1 := by
  have h1 : inbound payload oracle backend sendOk
      = .ok ([.backendCall args, .send f ("I couldn’t reach the SEVS service. " ++ e)], okTrueResp) := by
    simp [inbound, hp, ho, ha, hb, except_bind_ok, except_pure]
  refine ⟨h1, ?_⟩
  intro effs resp he
  rw [h1] at he
  have hpair := Except.ok.inj he
  cases hpair
  constructor <;> simp [List.countP_cons, List.countP_nil, isBackendCall, isSend]

/-- C7 witness: a concrete payload, tool-calling oracle, and failing
backend. -/
theorem c7_backend_failure_witness :
    inbound c7payload oracle0 backend0 true
      = .ok ([.backendCall (.obj [("query_type", .str "vehicle_eligibility")]),
              .send (.str "61400000000") "I couldn’t reach the SEVS service. timeout"], okTrueResp) :=
  (c7_backend_failure c7payload oracle0 backend0 true (.str "61400000000") (.str "q")
    { argsJson := some (.obj [("query_type", .str "vehicle_eligibility")]) } []
    (.obj [("query_type", .str "vehicle_eligibility")]) "timeout" rfl rfl rfl rfl).1

/-- C7 counterexample: the reply actually sent on a backend timeout differs
from the claim's apology string spelled with an ASCII apostrophe — the source
string uses U+2019 in `couldn’t`. -/
theorem c7_ascii_counterexample :
    inbound c7payload oracle0 backend0 true
        = .ok ([.backendCall (.obj [("query_type", .str "vehicle_eligibility")]),
                .send (.str "61400000000") "I couldn’t reach the SEVS service. timeout"], okTrueResp)
      ∧ "I couldn’t reach the SEVS service. timeout"
          ≠ "I couldn" ++ apos ++ "t reach the SEVS service. timeout" := by
  constructor
  · rfl
  · decide

/-- C3 (amended): payloads whose `entry` key is absent, whose resolved entry
object lacks `changes`, whose value object lacks `messages`, or whose message
carries `from` but no extractable text, all resolve to "nothing to do" and
the handler answers `{"ok": true}` with no effect; but the handler is not
exception-free on every well-formed JSON body: an empty `entry` list raises
an uncaught `IndexError` inside the fallback extraction, and a message
lacking `from` raises an uncaught `KeyError` (main.py line 118) — neither is
logged and dropped by the handler itself. -/
theorem c3_inbound_behaviour :
    (∀ fields, jlookup fields "entry" = none →
        ∀ oracle backend sendOk,
          inbound (.obj fields) oracle backend sendOk = .ok ([], okTrueResp))
      ∧ (∀ rest oracle backend sendOk,
          inbound (.obj (("entry", .arr []) :: rest)) oracle backend sendOk
            = .error .indexError)
      ∧ (∀ ekvs, jlookup ekvs "changes[0]" = none → jlookup ekvs "changes" = none →
          ∀ oracle backend sendOk,
            inbound (.obj [("entry", .arr [.obj ekvs])]) oracle backend sendOk
              = .ok ([], okTrueResp))
      ∧ (∀ vkvs, jlookup vkvs "messages" = none →
          ∀ oracle backend sendOk,
            inbound (wrapValue (.obj vkvs)) oracle backend sendOk = .ok ([], okTrueResp))
      ∧ (∀ mkvs f, jlookup mkvs "from" = some f → jlookup mkvs "text" = none →
            jlookup mkvs "interactive" = none →
          ∀ oracle backend sendOk,
            inbound (wrapMsg (.obj mkvs)) oracle backend sendOk = .ok ([], okTrueResp))
      ∧ (∀ mkvs, jlookup mkvs "from" = none →
          ∀ oracle backend sendOk,
            inbound (wrapMsg (.obj mkvs)) oracle backend sendOk
              = .error (.keyError "from")) := by
  refine ⟨?_, ?_, ?_, ?_, ?_, ?_⟩
  · intro fields h oracle backend sendOk
    simp [inbound, parseInbound, resolveValue, tryPrimary, fallbackValue,
      pyGet, getItemS, getItemI, pyFalsy, jlookup, h, except_bind_ok, except_bind_error, except_pure]
  · intro rest oracle backend sendOk
    simp [inbound, parseInbound, resolveValue, tryPrimary, fallbackValue,
      pyGet, getItemS, getItemI, pyFalsy, jlookup, except_bind_ok, except_bind_error, except_pure]
  · intro ekvs h1 h2 oracle backend sendOk
    simp [inbound, parseInbound, resolveValue, tryPrimary, fallbackValue,
      pyGet, getItemS, getItemI, pyFalsy, jlookup, h1, h2, except_bind_ok, except_bind_error, except_pure]
  · intro vkvs h oracle backend sendOk
    simp [inbound, parseInbound, resolveValue, tryPrimary, fallbackValue,
      pyGet, getItemS, getItemI, pyFalsy, jlookup, wrapValue, h,
      except_bind_ok, except_bind_error, except_pure]
  · intro mkvs f h1 h2 h3 oracle backend sendOk
    simp [inbound, parseInbound, resolveValue, tryPrimary, fallbackValue,
      pyGet, getItemS, getItemI, pyFalsy, jlookup, wrapValue, wrapMsg, h1, h2, h3,
      except_bind_ok, except_bind_error, except_pure]
  · intro mkvs h oracle backend sendOk
    simp [inbound, parseInbound, resolveValue, tryPrimary, fallbackValue,
      pyGet, getItemS, getItemI, pyFalsy, jlookup, wrapValue, wrapMsg, h,
      except_bind_ok, except_bind_error, except_pure]

/-- C3 witness: a payload with no `entry` key and a message with text but no
`from`. -/
theorem c3_inbound_behaviour_witness :
    inbound (.obj []) oracle0 backend0 true = .ok ([], okTrueResp)
      ∧ inbound (wrapMsg (.obj [("text", .obj [("body", .str "hi")])])) oracle0 backend0 true
          = .error (.keyError "from") :=
  ⟨c3_inbound_behaviour.1 [] rfl oracle0 backend0 true,
   c3_inbound_behaviour.2.2.2.2.2 [("text", .obj [("body", .str "hi")])] rfl oracle0 backend0 true⟩

/-- C3 counterexample: `{"entry": []}` is well-formed JSON, yet the handler
raises `IndexError` in the fallback extraction (line 114 indexes
`payload.get("entry",[{}])[0]` on the empty list) instead of answering
`{"ok": true}`. -/
theorem c3_empty_entry_counterexample :
    inbound (.obj [("entry", .arr [])]) oracle0 backend0 true = .error .indexError := by
  rfl

end SevsWhatsapp
